import Mathlib

/-!
Shallow embedding of the pixabay-mcp-server tool gateway (src/index.ts).

The program is a thin adapter: it registers four tools (search_images,
search_videos, get_image_by_id, get_video_by_id), and on invocation builds a
query string from the caller's argument map, injects the configured API key,
performs one HTTP GET and relays the body (or an error string) back.

Modelling conventions:
* JavaScript scalar argument values are `Value` (string, number, boolean,
  null, undefined).  The declared parameter types are all integers, so
  numbers are modelled as `Int`.
* An argument map (a JavaScript object) is an association list
  `List (String × Value)`; since JavaScript object keys are unique, theorems
  that depend on uniqueness carry a `Nodup` hypothesis on the key list.
* The single outbound `fetch` is modelled by passing its outcome
  (`FetchOutcome`: a network-level failure or an HTTP `Response`) as an
  explicit argument; `Response.ok` is derived from the status code exactly as
  the fetch API does.
* A thrown JavaScript exception is `Except.error`; `Except.ok` is a value
  returned normally.  The `CallToolRequestSchema` handler is
  `callToolHandler`; an `Except.error` escaping it models an exception that
  leaves the handler (i.e. a protocol-level failure), while `Except.ok` is a
  successfully returned protocol envelope (`ToolResult`).
* Side effects are made explicit: `Effects.fetched` collects the URLs passed
  to `fetch`, `Effects.logs` the lines written with `console.error`.
* `URLSearchParams` serialization percent-encodes keys and values following
  the WHATWG application/x-www-form-urlencoded serializer (`formEncode`).
* `JSON.stringify(await response.json(), null, 2)` re-formats the successful
  response body; no claim concerns that formatting, so `jsonPretty` keeps the
  body text unchanged.
-/

namespace Pixabay

/-- A JavaScript scalar value as it may appear in a tool-call argument map. -/
inductive Value where
  | vStr (s : String)
  | vNum (n : Int)
  | vBool (b : Bool)
  | vNull
  | vUndefined
deriving DecidableEq, Repr

/-- The filter predicate of index.ts:308 and 344:
`value !== undefined && value !== null && value !== ""`. -/
def Value.kept : Value → Bool
  | .vUndefined => false
  | .vNull => false
  | .vStr s => !(s == "")
  | .vNum _ => true
  | .vBool _ => true

/-- JavaScript `String(value)` coercion (index.ts:309 and 345) on the scalar
values above: strings unchanged, numbers in decimal, booleans to
"true"/"false". -/
def Value.jsString : Value → String
  | .vStr s => s
  | .vNum n => toString n
  | .vBool b => if b then "true" else "false"
  | .vNull => "null"
  | .vUndefined => "undefined"

/-- `filteredParams` (index.ts:306-310 and 342-346): drop entries whose value
is undefined, null or the empty string, and coerce the remaining values with
`String(value)`.  `Object.fromEntries` is the identity here because the
entries come from a JavaScript object, whose keys are unique. -/
def filteredParams (params : List (String × Value)) : List (String × String) :=
  (params.filter (fun p => p.2.kept)).map (fun p => (p.1, p.2.jsString))

/-- The entry list of `new URLSearchParams({ key: apiKey, ...filtered })`
(index.ts:312-315 and 348-351): the `key` property is created first; if the
spread object also has a `key` property its value overwrites the injected one
while keeping the first position (JavaScript object spread semantics). -/
def searchParams (apiKey : String) (filtered : List (String × String)) :
    List (String × String) :=
  ("key", (filtered.lookup "key").getD apiKey) ::
    filtered.filter (fun p => !(p.1 == "key"))

def hexDigits : List Char := ['0','1','2','3','4','5','6','7','8','9','A','B','C','D','E','F']

def byteHex (b : UInt8) : String :=
  String.mk [hexDigits.getD (b.toNat / 16) '0', hexDigits.getD (b.toNat % 16) '0']

/-- One byte of the WHATWG application/x-www-form-urlencoded serializer used
by `URLSearchParams.toString`: 0x20 becomes "+"; ASCII alphanumerics and
`*`, `-`, `.`, `_` stand for themselves; every other byte is
percent-encoded. -/
def formEncodeByte (b : UInt8) : String :=
  if b = 0x20 then "+"
  else if (0x30 ≤ b ∧ b ≤ 0x39) ∨ (0x41 ≤ b ∧ b ≤ 0x5A) ∨ (0x61 ≤ b ∧ b ≤ 0x7A)
      ∨ b = 0x2A ∨ b = 0x2D ∨ b = 0x2E ∨ b = 0x5F then
    String.singleton (Char.ofNat b.toNat)
  else "%" ++ byteHex b

/-- Form-urlencode a string: UTF-8 encode and escape each byte. -/
def formEncode (s : String) : String :=
  String.join ((s.data.flatMap String.utf8EncodeChar).map formEncodeByte)

/-- `URLSearchParams.toString()`: `k=v` pairs joined by `&`, keys and values
form-urlencoded, in insertion order. -/
def queryString (ps : List (String × String)) : String :=
  String.intercalate "&" (ps.map (fun p => formEncode p.1 ++ "=" ++ formEncode p.2))

/-- `PixabayConfig` (index.ts:13-17). -/
structure Config where
  apiKey : String
  baseUrl : String
  videosUrl : String
deriving DecidableEq, Repr

/-- The configuration built in the constructor (index.ts:56-60); the key is
`process.env.PIXABAY_API_KEY || ""`, so an unset environment variable is the
empty string. -/
def defaultConfig (apiKey : String) : Config :=
  { apiKey := apiKey
    baseUrl := "https://pixabay.com/api/"
    videosUrl := "https://pixabay.com/api/videos/" }

/-- An upstream HTTP response as seen through node-fetch. -/
structure Response where
  status : Nat
  statusText : String
  body : String
deriving DecidableEq, Repr

/-- fetch `Response.ok`: true exactly for status codes 200-299. -/
def Response.ok (r : Response) : Bool := 200 ≤ r.status && r.status < 300

/-- The outcome of the single `fetch(url)` call: either the promise rejects
(DNS failure, connection refused, ...) with an error message, or an HTTP
response arrives (of any status). -/
inductive FetchOutcome where
  | netError (msg : String)
  | response (r : Response)
deriving DecidableEq, Repr

/-- Observable side effects of one invocation: URLs passed to `fetch` and
lines written to the diagnostic stream with `console.error`. -/
structure Effects where
  fetched : List String
  logs : List String
deriving DecidableEq, Repr

/-- The protocol envelope returned by a tool handler: in the source always
`{ content: [{ type: "text", text }] }`, so only the text is modelled. -/
structure ToolResult where
  text : String
deriving DecidableEq, Repr

/-- `JSON.stringify(await response.json(), null, 2)` (index.ts:328-334):
pretty-printing of the upstream JSON body.  No claim concerns the formatting
of a successful payload, so the body text is kept unchanged. -/
def jsonPretty (body : String) : String := body

/-- The URL built by `searchImages` (index.ts:317). -/
def searchImagesUrl (cfg : Config) (params : List (String × Value)) : String :=
  cfg.baseUrl ++ "?" ++ queryString (searchParams cfg.apiKey (filteredParams params))

/-- The URL built by `searchVideos` (index.ts:353). -/
def searchVideosUrl (cfg : Config) (params : List (String × Value)) : String :=
  cfg.videosUrl ++ "?" ++ queryString (searchParams cfg.apiKey (filteredParams params))

/-- `searchImages` (index.ts:304-338).  Returns the method's normal result or
thrown exception together with its side effects.  The request URL is logged,
`fetch` is invoked, a non-ok response logs the error body and throws
`Pixabay API error: <status> <statusText> - <body>`; a rejected fetch
propagates as a thrown error; an ok response returns the pretty-printed
body. -/
def searchImages (cfg : Config) (params : List (String × Value)) (f : FetchOutcome) :
    Except String String × Effects :=
  let url := searchImagesUrl cfg params
  let reqLog := "Pixabay API Request: " ++ url
  match f with
  | .netError msg => (Except.error msg, ⟨[url], [reqLog]⟩)
  | .response r =>
    if r.ok then
      (Except.ok (jsonPretty r.body), ⟨[url], [reqLog]⟩)
    else
      (Except.error ("Pixabay API error: " ++ toString r.status ++ " " ++
          r.statusText ++ " - " ++ r.body),
        ⟨[url], [reqLog, "Pixabay API Error Response: " ++ r.body]⟩)

/-- `searchVideos` (index.ts:340-374); identical to `searchImages` except for
the endpoint and the log prefixes. -/
def searchVideos (cfg : Config) (params : List (String × Value)) (f : FetchOutcome) :
    Except String String × Effects :=
  let url := searchVideosUrl cfg params
  let reqLog := "Pixabay Video API Request: " ++ url
  match f with
  | .netError msg => (Except.error msg, ⟨[url], [reqLog]⟩)
  | .response r =>
    if r.ok then
      (Except.ok (jsonPretty r.body), ⟨[url], [reqLog]⟩)
    else
      (Except.error ("Pixabay API error: " ++ toString r.status ++ " " ++
          r.statusText ++ " - " ++ r.body),
        ⟨[url], [reqLog, "Pixabay Video API Error Response: " ++ r.body]⟩)

/-- `getImageById` (index.ts:376-378): delegates to `searchImages` with
`{ id: params.id }`.  The `args as { id: string }` cast is erased at runtime,
so the property access `params.id` simply reads the `id` property of the raw
argument object, yielding `undefined` when it is missing. -/
def getImageById (cfg : Config) (args : List (String × Value)) (f : FetchOutcome) :
    Except String String × Effects :=
  searchImages cfg [("id", (args.lookup "id").getD Value.vUndefined)] f

/-- `getVideoById` (index.ts:380-382). -/
def getVideoById (cfg : Config) (args : List (String × Value)) (f : FetchOutcome) :
    Except String String × Effects :=
  searchVideos cfg [("id", (args.lookup "id").getD Value.vUndefined)] f

/-- The `switch (name)` dispatch inside the try block (index.ts:265-276);
an unknown name throws `Unknown tool: <name>` without touching the network. -/
def toolDispatch (cfg : Config) (name : String) (args : List (String × Value))
    (f : FetchOutcome) : Except String String × Effects :=
  if name = "search_images" then searchImages cfg args f
  else if name = "search_videos" then searchVideos cfg args f
  else if name = "get_image_by_id" then getImageById cfg args f
  else if name = "get_video_by_id" then getVideoById cfg args f
  else (Except.error ("Unknown tool: " ++ name), ⟨[], []⟩)

/-- Result of the whole `CallToolRequestSchema` handler: either a returned
protocol envelope (`Except.ok`) or an exception escaping the handler
(`Except.error`), plus the side effects of the invocation. -/
instance exceptToolResultDecEq : DecidableEq (Except String ToolResult) := fun a b =>
  match a, b with
  | .ok x, .ok y => if h : x = y then isTrue (by rw [h]) else isFalse (by simp [h])
  | .error x, .error y => if h : x = y then isTrue (by rw [h]) else isFalse (by simp [h])
  | .ok _, .error _ => isFalse (by simp)
  | .error _, .ok _ => isFalse (by simp)

structure HandlerOutcome where
  result : Except String ToolResult
  effects : Effects
deriving DecidableEq, Repr

/-- The `CallToolRequestSchema` handler (index.ts:257-287).  The API-key
check at index.ts:260-262 throws BEFORE the try block, so that exception is
not converted into an error envelope; everything thrown inside the switch is
caught and wrapped as `Error: <message>` text in a normally returned
envelope. -/
def callToolHandler (cfg : Config) (name : String) (args : List (String × Value))
    (f : FetchOutcome) : HandlerOutcome :=
  if cfg.apiKey = "" then
    { result := Except.error "PIXABAY_API_KEY environment variable is required"
      effects := ⟨[], []⟩ }
  else
    match toolDispatch cfg name args f with
    | (Except.ok text, eff) => { result := Except.ok { text := text }, effects := eff }
    | (Except.error msg, eff) =>
      { result := Except.ok { text := "Error: " ++ msg }, effects := eff }

/-- One property of a tool's declared input schema (type, enum, bounds,
default); prose descriptions are elided, no claim concerns them. -/
structure ParamSpec where
  type : String
  enumVals : List String := []
  minimum : Option Int := none
  maximum : Option Int := none
  default : Option Value := none
deriving DecidableEq, Repr

/-- A tool descriptor of the `ListToolsRequestSchema` handler. -/
structure ToolSchema where
  name : String
  properties : List (String × ParamSpec)
  required : List String := []
deriving DecidableEq, Repr

/-- The static tool registry returned by the `ListToolsRequestSchema`
handler (index.ts:80-255). -/
def listTools : List ToolSchema :=
  [ { name := "search_images"
      properties :=
        [ ("q", { type := "string" })
        , ("lang", { type := "string", default := some (Value.vStr "en") })
        , ("image_type", { type := "string", enumVals := ["all", "photo", "illustration", "vector"], default := some (Value.vStr "all") })
        , ("orientation", { type := "string", enumVals := ["all", "horizontal", "vertical"], default := some (Value.vStr "all") })
        , ("category", { type := "string" })
        , ("min_width", { type := "integer", default := some (Value.vNum 0) })
        , ("min_height", { type := "integer", default := some (Value.vNum 0) })
        , ("colors", { type := "string" })
        , ("editors_choice", { type := "boolean", default := some (Value.vBool false) })
        , ("safesearch", { type := "boolean", default := some (Value.vBool false) })
        , ("order", { type := "string", enumVals := ["popular", "latest"], default := some (Value.vStr "popular") })
        , ("page", { type := "integer", default := some (Value.vNum 1) })
        , ("per_page", { type := "integer", default := some (Value.vNum 20), minimum := some 3, maximum := some 200 }) ] }
  , { name := "search_videos"
      properties :=
        [ ("q", { type := "string" })
        , ("lang", { type := "string", default := some (Value.vStr "en") })
        , ("video_type", { type := "string", enumVals := ["all", "film", "animation"], default := some (Value.vStr "all") })
        , ("category", { type := "string" })
        , ("min_width", { type := "integer", default := some (Value.vNum 0) })
        , ("min_height", { type := "integer", default := some (Value.vNum 0) })
        , ("editors_choice", { type := "boolean", default := some (Value.vBool false) })
        , ("safesearch", { type := "boolean", default := some (Value.vBool false) })
        , ("order", { type := "string", enumVals := ["popular", "latest"], default := some (Value.vStr "popular") })
        , ("page", { type := "integer", default := some (Value.vNum 1) })
        , ("per_page", { type := "integer", default := some (Value.vNum 20), minimum := some 3, maximum := some 200 }) ] }
  , { name := "get_image_by_id"
      properties := [ ("id", { type := "string" }) ]
      required := ["id"] }
  , { name := "get_video_by_id"
      properties := [ ("id", { type := "string" }) ]
      required := ["id"] } ]

/-! ## Helper lemmas -/

theorem toDigitsCore_ne_nil (b : Nat) (fuel : Nat) :
    ∀ (n : Nat) (ds : List Char), fuel ≠ 0 ∨ ds ≠ [] →
      Nat.toDigitsCore b fuel n ds ≠ [] := by
  induction fuel with
  | zero =>
    intro n ds h
    rcases h with h | h
    · exact absurd rfl h
    · simpa [Nat.toDigitsCore] using h
  | succ fuel ih =>
    intro n ds _
    simp only [Nat.toDigitsCore]
    split
    · exact List.cons_ne_nil _ _
    · exact ih (n / b) (Nat.digitChar (n % b) :: ds) (Or.inr (List.cons_ne_nil _ _))

theorem natRepr_ne_empty (n : Nat) : Nat.repr n ≠ "" := by
  intro h
  have hdata : Nat.toDigits 10 n = [] := congrArg String.data h
  exact toDigitsCore_ne_nil 10 (n + 1) n [] (Or.inl (Nat.succ_ne_zero n))
    (by simpa [Nat.toDigits] using hdata)

/-- A value that survives the filter stringifies to a non-empty string. -/
theorem jsString_ne_empty (v : Value) (h : v.kept = true) : v.jsString ≠ "" := by
  cases v with
  | vStr s => simpa [Value.kept, Value.jsString] using h
  | vNum n =>
    cases n with
    | ofNat m => exact natRepr_ne_empty m
    | negSucc m =>
      intro hc
      have h2 : ('-' :: (Nat.repr (m + 1)).data) = ([] : List Char) := congrArg String.data hc
      exact List.cons_ne_nil _ _ h2
  | vBool b => cases b <;> simp [Value.jsString]
  | vNull => simp [Value.kept] at h
  | vUndefined => simp [Value.kept] at h

/-- Two entries of an association list with no duplicate keys and the same
key are the same entry. -/
theorem mem_eq_of_nodup_keys {α β : Type} {l : List (α × β)}
    (hnd : (l.map Prod.fst).Nodup) {k : α} {v w : β}
    (h1 : (k, v) ∈ l) (h2 : (k, w) ∈ l) : v = w := by
  induction l with
  | nil => cases h1
  | cons p rest ih =>
    simp only [List.map_cons, List.nodup_cons] at hnd
    rcases List.mem_cons.mp h1 with h1 | h1 <;> rcases List.mem_cons.mp h2 with h2 | h2
    · rw [← h2] at h1
      exact congrArg Prod.snd h1
    · exfalso
      apply hnd.1
      rw [← h1]
      exact List.mem_map.mpr ⟨(k, w), h2, rfl⟩
    · exfalso
      apply hnd.1
      rw [← h2]
      exact List.mem_map.mpr ⟨(k, v), h1, rfl⟩
    · exact ih hnd.2 h1 h2

theorem filteredParams_lookup_none (params : List (String × Value)) (k : String)
    (v : Value) (hnd : (params.map Prod.fst).Nodup) (hmem : (k, v) ∈ params)
    (hdrop : v.kept = false) : (filteredParams params).lookup k = none := by
  rw [List.lookup_eq_none_iff]
  intro p hp
  rcases List.mem_map.mp hp with ⟨⟨a, w⟩, hq, rfl⟩
  obtain ⟨hqmem, hqkept⟩ := List.mem_filter.mp hq
  simp only [bne_iff_ne, ne_eq]
  intro hkq
  have hka : k = a := hkq
  subst hka
  have hkept2 : w.kept = true := hqkept
  have hveq : v = w := mem_eq_of_nodup_keys hnd hmem hqmem
  rw [← hveq] at hkept2
  rw [hdrop] at hkept2
  exact Bool.noConfusion hkept2

theorem filteredParams_lookup_some (params : List (String × Value)) (k : String)
    (v : Value) (hnd : (params.map Prod.fst).Nodup) (hmem : (k, v) ∈ params)
    (hkept : v.kept = true) : (filteredParams params).lookup k = some v.jsString := by
  induction params with
  | nil => cases hmem
  | cons p rest ih =>
    simp only [List.map_cons, List.nodup_cons] at hnd
    rcases List.mem_cons.mp hmem with h | h
    · rw [← h]
      simp [filteredParams, List.filter_cons, hkept, List.lookup_cons]
    · have hk : p.1 ≠ k := by
        intro he
        exact hnd.1 (he ▸ List.mem_map.mpr ⟨(k, v), h, rfl⟩)
      have hkb : (k == p.1) = false := beq_eq_false_iff_ne.mpr (Ne.symm hk)
      by_cases hpk : p.2.kept
      · simpa [filteredParams, List.filter_cons, hpk, List.lookup_cons, hkb]
          using ih hnd.2 h
      · simpa [filteredParams, List.filter_cons, hpk]
          using ih hnd.2 h

theorem filteredParams_val_ne_empty (params : List (String × Value)) :
    ∀ p ∈ filteredParams params, p.2 ≠ "" := by
  intro p hp
  rcases List.mem_map.mp hp with ⟨q, hq, rfl⟩
  exact jsString_ne_empty q.2 (List.mem_filter.mp hq).2

theorem lookup_some_mem {l : List (String × String)} {k w : String}
    (h : l.lookup k = some w) : (k, w) ∈ l := by
  rcases List.lookup_eq_some_iff.mp h with ⟨l₁, l₂, rfl, -⟩
  simp

theorem searchParams_lookup_key (apiKey : String) (filtered : List (String × String)) :
    (searchParams apiKey filtered).lookup "key" =
      some ((filtered.lookup "key").getD apiKey) := by
  simp [searchParams]

theorem lookup_filter_ne (filtered : List (String × String)) (k : String)
    (hk : k ≠ "key") :
    (filtered.filter (fun p => !(p.1 == "key"))).lookup k = filtered.lookup k := by
  induction filtered with
  | nil => rfl
  | cons p rest ih =>
    rcases p with ⟨a, b⟩
    by_cases hp : a = "key"
    · subst hp
      have hkb : (k == "key") = false := beq_eq_false_iff_ne.mpr hk
      simp [List.filter_cons, List.lookup_cons, hkb, ih]
    · have hpb : (a == "key") = false := beq_eq_false_iff_ne.mpr hp
      simp only [List.filter_cons, hpb, Bool.not_false, if_true]
      simp only [List.lookup_cons]
      cases hab : (k == a) with
      | true => rfl
      | false => exact ih

theorem searchParams_lookup_ne (apiKey : String) (filtered : List (String × String))
    (k : String) (hk : k ≠ "key") :
    (searchParams apiKey filtered).lookup k = filtered.lookup k := by
  have hkb : (k == "key") = false := beq_eq_false_iff_ne.mpr hk
  simp [searchParams, List.lookup_cons, hkb, lookup_filter_ne filtered k hk]

theorem searchParams_key_count (apiKey : String) (filtered : List (String × String)) :
    ((searchParams apiKey filtered).filter (fun p => p.1 == "key")).length = 1 := by
  simp [searchParams, List.filter_cons, List.filter_filter]

theorem filter_key_id (filtered : List (String × String))
    (h : filtered.lookup "key" = none) :
    filtered.filter (fun p => !(p.1 == "key")) = filtered := by
  rw [List.filter_eq_self]
  intro p hp
  have hne := List.lookup_eq_none_iff.mp h p hp
  have : ("key" : String) ≠ p.1 := by simpa using hne
  simpa using Ne.symm this

/-- With a non-empty configured key, the handler never lets an exception
escape: it returns the dispatch result, wrapping anything thrown inside the
switch as `Error:` text. -/
theorem callToolHandler_of_key (cfg : Config) (name : String)
    (args : List (String × Value)) (f : FetchOutcome) (hkey : cfg.apiKey ≠ "") :
    callToolHandler cfg name args f =
      match toolDispatch cfg name args f with
      | (Except.ok text, eff) => { result := Except.ok { text := text }, effects := eff }
      | (Except.error msg, eff) =>
        { result := Except.ok { text := "Error: " ++ msg }, effects := eff } := by
  unfold callToolHandler
  rw [if_neg hkey]

theorem searchImages_not_ok (cfg : Config) (params : List (String × Value))
    (r : Response) (h : r.ok = false) :
    searchImages cfg params (FetchOutcome.response r) =
      (Except.error ("Pixabay API error: " ++ toString r.status ++ " " ++
          r.statusText ++ " - " ++ r.body),
        ⟨[searchImagesUrl cfg params],
         ["Pixabay API Request: " ++ searchImagesUrl cfg params,
          "Pixabay API Error Response: " ++ r.body]⟩) := by
  simp [searchImages, h]

theorem searchVideos_not_ok (cfg : Config) (params : List (String × Value))
    (r : Response) (h : r.ok = false) :
    searchVideos cfg params (FetchOutcome.response r) =
      (Except.error ("Pixabay API error: " ++ toString r.status ++ " " ++
          r.statusText ++ " - " ++ r.body),
        ⟨[searchVideosUrl cfg params],
         ["Pixabay Video API Request: " ++ searchVideosUrl cfg params,
          "Pixabay Video API Error Response: " ++ r.body]⟩) := by
  simp [searchVideos, h]

/-! ## Claims -/

/-- C1, counterexample: with the credential absent (empty API key), invoking
search_images makes the handler throw (the API-key check at index.ts:260-262
sits BEFORE the try/catch), so the protocol call fails with an exception
instead of returning a successful envelope with error text.  This refutes
the claim that every failure kind is caught at the invocation boundary. -/
theorem C1_counterexample :
    (callToolHandler (defaultConfig "") "search_images" []
        (FetchOutcome.netError "ECONNREFUSED")).result =
      Except.error "PIXABAY_API_KEY environment variable is required" := rfl

/-- C1, amended: for every tool invocation with a configured (non-empty)
credential, every failure kind raised inside the dispatch switch — upstream
HTTP error, unknown tool name, network failure — is caught at the invocation
boundary and returned as a successfully returned envelope whose text is
`Error:` plus the thrown message; the protocol call itself never fails.  The
configuration-error kind alone escapes as a thrown exception (see the
counterexample). -/
theorem C1_amended (cfg : Config) (name : String) (args : List (String × Value))
    (f : FetchOutcome) (hkey : cfg.apiKey ≠ "") :
    (∃ t, (callToolHandler cfg name args f).result = Except.ok t) ∧
    (∀ msg eff, toolDispatch cfg name args f = (Except.error msg, eff) →
      (callToolHandler cfg name args f).result =
        Except.ok { text := "Error: " ++ msg }) := by
  constructor
  · rw [callToolHandler_of_key cfg name args f hkey]
    rcases h : toolDispatch cfg name args f with ⟨res, eff⟩
    cases res with
    | ok text => exact ⟨{ text := text }, rfl⟩
    | error msg => exact ⟨{ text := "Error: " ++ msg }, rfl⟩
  · intro msg eff h
    rw [callToolHandler_of_key cfg name args f hkey, h]

theorem C1_amended_witness :
    ∃ t, (callToolHandler (defaultConfig "K") "search_images" []
        (FetchOutcome.netError "ECONNREFUSED")).result = Except.ok t :=
  (C1_amended (defaultConfig "K") "search_images" []
    (FetchOutcome.netError "ECONNREFUSED") (by decide)).1

/-- C2, counterexample: with the credential absent, the call does NOT return
a configuration-error textual result — it throws (the thrown error escapes
the handler, `Except.error`), performing no network access and writing no
log.  This refutes "returns a ... textual error result — not a thrown
exception". -/
theorem C2_counterexample :
    (callToolHandler (defaultConfig "") "search_videos" [("q", Value.vStr "dog")]
        (FetchOutcome.response ⟨200, "OK", "{}"⟩)) =
      { result := Except.error "PIXABAY_API_KEY environment variable is required",
        effects := { fetched := [], logs := [] } } := rfl

/-- C2, amended: for every tool invocation made while the credential is
absent (empty API key), the handler throws the configuration error
`PIXABAY_API_KEY environment variable is required` (rather than returning a
textual error result), and performs no network access and no logging before
failing. -/
theorem C2_amended (cfg : Config) (name : String) (args : List (String × Value))
    (f : FetchOutcome) (hkey : cfg.apiKey = "") :
    callToolHandler cfg name args f =
      { result := Except.error "PIXABAY_API_KEY environment variable is required",
        effects := { fetched := [], logs := [] } } := by
  unfold callToolHandler
  rw [if_pos hkey]

theorem C2_amended_witness :
    callToolHandler (defaultConfig "") "get_image_by_id" [("id", Value.vStr "1")]
        (FetchOutcome.response ⟨200, "OK", "{}"⟩) =
      { result := Except.error "PIXABAY_API_KEY environment variable is required",
        effects := { fetched := [], logs := [] } } :=
  C2_amended (defaultConfig "") "get_image_by_id" [("id", Value.vStr "1")]
    (FetchOutcome.response ⟨200, "OK", "{}"⟩) rfl

/-- C3, counterexample: an input map whose `key` entry is null.  The claim
says every key with a null value is absent from the constructed query
string, but the constructed query still contains the parameter name `key`
(carrying the injected credential): the full outbound URL for
search_images({key: null}) is `...?key=CONFIGKEY`. -/
theorem C3_counterexample :
    searchImagesUrl (defaultConfig "CONFIGKEY") [("key", Value.vNull)] =
      "https://pixabay.com/api/?key=CONFIGKEY" := by decide

/-- C3, amended: in the outbound parameter list of search_images or
search_videos (both build it the same way, via `filteredParams` and
`searchParams`), every input entry whose value is undefined, null or the
empty string is absent — except that the name `key` always carries the
injected credential — and every remaining entry appears with its JavaScript
string coercion (booleans as "true"/"false", numbers as decimal text). -/
theorem C3_amended (apiKey : String) (params : List (String × Value)) (k : String)
    (v : Value) (hnd : (params.map Prod.fst).Nodup) (hmem : (k, v) ∈ params) :
    (v.kept = false → k ≠ "key" →
      (searchParams apiKey (filteredParams params)).lookup k = none) ∧
    (v.kept = true →
      (searchParams apiKey (filteredParams params)).lookup k = some v.jsString) := by
  constructor
  · intro hdrop hk
    rw [searchParams_lookup_ne apiKey _ k hk]
    exact filteredParams_lookup_none params k v hnd hmem hdrop
  · intro hkept
    by_cases hk : k = "key"
    · subst hk
      rw [searchParams_lookup_key]
      rw [filteredParams_lookup_some params "key" v hnd hmem hkept]
      rfl
    · rw [searchParams_lookup_ne apiKey _ k hk]
      exact filteredParams_lookup_some params k v hnd hmem hkept

theorem C3_amended_witness :
    (searchParams "K" (filteredParams
        [("q", Value.vStr "cat"), ("colors", Value.vNull)])).lookup "colors" = none ∧
    (searchParams "K" (filteredParams
        [("q", Value.vStr "cat"), ("colors", Value.vNull)])).lookup "q" = some "cat" :=
  ⟨(C3_amended "K" [("q", Value.vStr "cat"), ("colors", Value.vNull)] "colors"
      Value.vNull (by decide) (by decide)).1 (by decide) (by decide),
   (C3_amended "K" [("q", Value.vStr "cat"), ("colors", Value.vNull)] "q"
      (Value.vStr "cat") (by decide) (by decide)).2 (by decide)⟩

/-- C4, confirmed: for every search_images or search_videos invocation whose
upstream response has a non-success status (`Response.ok` false, i.e. status
outside 200-299, e.g. 404/429/500), the handler returns a normal envelope
(`Except.ok`, not a transport-level fault) whose text is exactly
`Error: Pixabay API error: <status> <statusText> - <body>`: it starts with
the `Error:` prefix and carries the numeric status code, the status text and
the upstream error body verbatim. -/
theorem C4_confirmed (cfg : Config) (args : List (String × Value)) (r : Response)
    (name : String) (hkey : cfg.apiKey ≠ "")
    (hname : name = "search_images" ∨ name = "search_videos")
    (hok : r.ok = false) :
    (callToolHandler cfg name args (FetchOutcome.response r)).result =
      Except.ok { text := "Error: " ++ ("Pixabay API error: " ++ toString r.status
        ++ " " ++ r.statusText ++ " - " ++ r.body) } := by
  rcases hname with rfl | rfl
  · rw [callToolHandler_of_key cfg _ args _ hkey]
    have hd : toolDispatch cfg "search_images" args (FetchOutcome.response r) =
        searchImages cfg args (FetchOutcome.response r) := by
      simp [toolDispatch]
    rw [hd, searchImages_not_ok cfg args r hok]
  · rw [callToolHandler_of_key cfg _ args _ hkey]
    have hd : toolDispatch cfg "search_videos" args (FetchOutcome.response r) =
        searchVideos cfg args (FetchOutcome.response r) := by
      simp [toolDispatch]
    rw [hd, searchVideos_not_ok cfg args r hok]

theorem C4_confirmed_witness :
    (callToolHandler (defaultConfig "K") "search_images" []
        (FetchOutcome.response ⟨404, "Not Found", "[ERROR 404] Not Found"⟩)).result =
      Except.ok { text := "Error: Pixabay API error: 404 Not Found - [ERROR 404] Not Found" } :=
  C4_confirmed (defaultConfig "K") [] ⟨404, "Not Found", "[ERROR 404] Not Found"⟩
    "search_images" (by decide) (Or.inl rfl) (by decide)

/-- C5, counterexample: the id is NOT type-checked as a string before
delegation — the `args as {id: string}` cast is erased at runtime.  Calling
get_image_by_id with a numeric id 7 is not rejected: it delegates, the
number is coerced and the outbound request is made with `id=7`, returning
the upstream body as a success envelope. -/
theorem C5_counterexample :
    callToolHandler (defaultConfig "K") "get_image_by_id" [("id", Value.vNum 7)]
        (FetchOutcome.response ⟨200, "OK", "{}"⟩) =
      { result := Except.ok { text := "{}" },
        effects := { fetched := ["https://pixabay.com/api/?key=K&id=7"],
                     logs := ["Pixabay API Request: https://pixabay.com/api/?key=K&id=7"] } } := by
  decide

/-- C5, amended: for every id string, get_image_by_id({id}) performs exactly
the same computation as search_images({id}) — byte-identical outbound query
string, same result — and likewise get_video_by_id and search_videos.  The
id is declared required with type string in the tool schema, but no runtime
type check happens before delegation: a missing id delegates as
`{id: undefined}` (the entry is then dropped from the query). -/
theorem C5_amended (cfg : Config) (s : String) (f : FetchOutcome) :
    (getImageById cfg [("id", Value.vStr s)] f =
      searchImages cfg [("id", Value.vStr s)] f) ∧
    (getVideoById cfg [("id", Value.vStr s)] f =
      searchVideos cfg [("id", Value.vStr s)] f) ∧
    (getImageById cfg [] f = searchImages cfg [("id", Value.vUndefined)] f) ∧
    ((listTools.find? (fun t => t.name == "get_image_by_id")).map
        (fun t => t.required) = some ["id"]) :=
  ⟨rfl, rfl, rfl, by decide⟩

/-- C6: the code passes per_page through out of range.  The declared input
schema of search_images bounds per_page to [3, 200], yet a call with
per_page = 500 is neither rejected nor clamped: the outbound request is
built and fetched with `per_page=500`. -/
theorem C6_code_bug :
    ((listTools.find? (fun t => t.name == "search_images")).map
        (fun t => (t.properties.lookup "per_page").map
          (fun p => (p.minimum, p.maximum))) = some (some (some 3, some 200))) ∧
    (callToolHandler (defaultConfig "K") "search_images" [("per_page", Value.vNum 500)]
        (FetchOutcome.response ⟨200, "OK", "{}"⟩)).effects.fetched =
      ["https://pixabay.com/api/?key=K&per_page=500"] := by
  constructor
  · decide
  · decide

/-- C7, confirmed: with a configured credential, invoking any name outside
the registry of four tools returns an error envelope whose text is
`Error: Unknown tool: <name>`, and performs no network call (and writes no
log). -/
theorem C7_confirmed (cfg : Config) (name : String) (args : List (String × Value))
    (f : FetchOutcome) (hkey : cfg.apiKey ≠ "")
    (h1 : name ≠ "search_images") (h2 : name ≠ "search_videos")
    (h3 : name ≠ "get_image_by_id") (h4 : name ≠ "get_video_by_id") :
    (callToolHandler cfg name args f).result =
      Except.ok { text := "Error: " ++ ("Unknown tool: " ++ name) } ∧
    (callToolHandler cfg name args f).effects = { fetched := [], logs := [] } := by
  have hd : toolDispatch cfg name args f =
      (Except.error ("Unknown tool: " ++ name), ⟨[], []⟩) := by
    simp [toolDispatch, h1, h2, h3, h4]
  rw [callToolHandler_of_key cfg name args f hkey, hd]
  exact ⟨rfl, rfl⟩

theorem C7_confirmed_witness :
    (callToolHandler (defaultConfig "K") "delete_image" []
        (FetchOutcome.netError "unreachable")).result =
      Except.ok { text := "Error: Unknown tool: delete_image" } ∧
    (callToolHandler (defaultConfig "K") "delete_image" []
        (FetchOutcome.netError "unreachable")).effects = { fetched := [], logs := [] } :=
  C7_confirmed (defaultConfig "K") "delete_image" [] (FetchOutcome.netError "unreachable")
    (by decide) (by decide) (by decide) (by decide) (by decide)

/-- C8, confirmed: for every search_images/search_videos parameter map and
every non-empty configured API key, the outbound parameter list (the
entries of the `URLSearchParams`, from which the query string is serialized)
carries exactly one entry named `key`, and its value is non-empty — the
injected credential, or the caller's non-empty override.  The source invokes
`fetch(url)` with no headers argument, so the credential travels only as a
query parameter. -/
theorem C8_confirmed (apiKey : String) (params : List (String × Value))
    (hkey : apiKey ≠ "") :
    (((searchParams apiKey (filteredParams params)).filter
        (fun p => p.1 == "key")).length = 1) ∧
    (∀ p ∈ searchParams apiKey (filteredParams params), p.1 = "key" → p.2 ≠ "") := by
  refine ⟨searchParams_key_count apiKey (filteredParams params), ?_⟩
  intro p hp _
  rcases List.mem_cons.mp hp with h | h
  · rw [h]
    cases hl : (filteredParams params).lookup "key" with
    | none => simpa [hl] using hkey
    | some w =>
      have hw := filteredParams_val_ne_empty params _ (lookup_some_mem hl)
      simpa [hl] using hw
  · exact filteredParams_val_ne_empty params p (List.mem_of_mem_filter h)

theorem C8_confirmed_witness :
    ((searchParams "K" (filteredParams [("q", Value.vStr "cat")])).filter
        (fun p => p.1 == "key")).length = 1 :=
  (C8_confirmed "K" [("q", Value.vStr "cat")] (by decide)).1

/-- C9, counterexample: a search_images call writes the full request URL,
credential included verbatim, to the diagnostic stream: with API key
SECRETKEY123 the logged line is exactly the concatenation below, containing
the key in full.  This refutes "the credential is never written verbatim in
full to the diagnostic output stream". -/
theorem C9_counterexample :
    (searchImages (defaultConfig "SECRETKEY123") [("q", Value.vStr "cat")]
        (FetchOutcome.response ⟨200, "OK", "{}"⟩)).2.logs =
      ["Pixabay API Request: https://pixabay.com/api/?key=" ++ "SECRETKEY123"
        ++ "&q=cat"] := by
  decide

/-- When the caller's map contributes no `key` entry and the configured key
is unchanged by form-urlencoding, the serialized query of either search
operation starts with `key=<apiKey>` followed by the caller's encoded
entries. -/
theorem queryString_no_override (apiKey : String) (filtered : List (String × String))
    (hnk : filtered.lookup "key" = none) (henc : formEncode apiKey = apiKey) :
    queryString (searchParams apiKey filtered) =
      String.intercalate "&" (("key=" ++ apiKey) ::
        filtered.map (fun p => formEncode p.1 ++ "=" ++ formEncode p.2)) := by
  unfold queryString searchParams
  rw [hnk, filter_key_id _ hnk]
  have h1 : formEncode "key" = "key" := by decide
  have h2 : ("key" : String) ++ "=" = "key=" := by decide
  simp only [List.map_cons, Option.getD_none, h1, henc, h2]

/-- C9, amended: every search_images or search_videos call in which the
caller does not supply a `key` entry of its own and the configured key is
form-urlencoding-neutral (as Pixabay's alphanumeric-with-dashes keys are)
writes the credential verbatim and in full to the diagnostic output stream:
the first logged line is `Pixabay API Request: <baseUrl>?key=<apiKey>&...`
for search_images and `Pixabay Video API Request: <videosUrl>?key=<apiKey>&...`
for search_videos. -/
theorem C9_amended (cfg : Config) (params : List (String × Value)) (f : FetchOutcome)
    (hnk : (filteredParams params).lookup "key" = none)
    (henc : formEncode cfg.apiKey = cfg.apiKey) :
    ((searchImages cfg params f).2.logs.head? =
      some ("Pixabay API Request: " ++ (cfg.baseUrl ++ "?" ++
        String.intercalate "&" (("key=" ++ cfg.apiKey) ::
          (filteredParams params).map
            (fun p => formEncode p.1 ++ "=" ++ formEncode p.2))))) ∧
    ((searchVideos cfg params f).2.logs.head? =
      some ("Pixabay Video API Request: " ++ (cfg.videosUrl ++ "?" ++
        String.intercalate "&" (("key=" ++ cfg.apiKey) ::
          (filteredParams params).map
            (fun p => formEncode p.1 ++ "=" ++ formEncode p.2))))) := by
  have hq := queryString_no_override cfg.apiKey (filteredParams params) hnk henc
  constructor
  · have hurl : searchImagesUrl cfg params =
        cfg.baseUrl ++ "?" ++ String.intercalate "&" (("key=" ++ cfg.apiKey) ::
          (filteredParams params).map
            (fun p => formEncode p.1 ++ "=" ++ formEncode p.2)) := by
      unfold searchImagesUrl
      rw [hq]
    cases f with
    | netError msg => simp [searchImages, hurl]
    | response r =>
      by_cases hok : r.ok <;> simp [searchImages, hok, hurl]
  · have hurl : searchVideosUrl cfg params =
        cfg.videosUrl ++ "?" ++ String.intercalate "&" (("key=" ++ cfg.apiKey) ::
          (filteredParams params).map
            (fun p => formEncode p.1 ++ "=" ++ formEncode p.2)) := by
      unfold searchVideosUrl
      rw [hq]
    cases f with
    | netError msg => simp [searchVideos, hurl]
    | response r =>
      by_cases hok : r.ok <;> simp [searchVideos, hok, hurl]

theorem C9_amended_witness :
    ((searchImages (defaultConfig "SECRETKEY456") [("q", Value.vStr "dog")]
        (FetchOutcome.response ⟨200, "OK", "{}"⟩)).2.logs.head? =
      some ("Pixabay API Request: " ++ ("https://pixabay.com/api/" ++ "?" ++
        String.intercalate "&" (("key=" ++ "SECRETKEY456") ::
          (filteredParams [("q", Value.vStr "dog")]).map
            (fun p => formEncode p.1 ++ "=" ++ formEncode p.2))))) ∧
    ((searchVideos (defaultConfig "SECRETKEY456") [("q", Value.vStr "dog")]
        (FetchOutcome.response ⟨200, "OK", "{}"⟩)).2.logs.head? =
      some ("Pixabay Video API Request: " ++ ("https://pixabay.com/api/videos/" ++ "?" ++
        String.intercalate "&" (("key=" ++ "SECRETKEY456") ::
          (filteredParams [("q", Value.vStr "dog")]).map
            (fun p => formEncode p.1 ++ "=" ++ formEncode p.2))))) :=
  C9_amended (defaultConfig "SECRETKEY456") [("q", Value.vStr "dog")]
    (FetchOutcome.response ⟨200, "OK", "{}"⟩) (by decide) (by decide)

/-- C10, confirmed: when the caller's argument map itself contains a `key`
entry with a non-empty string value, the outbound credential parameter
equals that caller-supplied value — the filtered caller parameters are
spread after the injected key in the `URLSearchParams` literal and override
it. -/
theorem C10_confirmed (apiKey : String) (params : List (String × Value)) (v : String)
    (hnd : (params.map Prod.fst).Nodup) (hmem : ("key", Value.vStr v) ∈ params)
    (hv : v ≠ "") :
    (searchParams apiKey (filteredParams params)).lookup "key" = some v := by
  rw [searchParams_lookup_key]
  rw [filteredParams_lookup_some params "key" (Value.vStr v) hnd hmem
    (by simp [Value.kept, hv])]
  rfl

theorem C10_confirmed_witness :
    (searchParams "CONFIGKEY" (filteredParams
        [("key", Value.vStr "CALLERKEY"), ("q", Value.vStr "cat")])).lookup "key" =
      some "CALLERKEY" :=
  C10_confirmed "CONFIGKEY" [("key", Value.vStr "CALLERKEY"), ("q", Value.vStr "cat")]
    "CALLERKEY" (by decide) (by decide) (by decide)

end Pixabay
